import Mathlib

/-
Shallow embedding of the credits-ledger / payment-reconciliation core of the
imageToCode repository (Flask + SQLAlchemy).

Sources embedded:
  * src/app/models.py            — Account.has_credits / deduct_credits / add_credits,
                                   CreditsTransaction, Order, Conversion
  * src/app/admin/routes.py      — adjust_credits (admin credit adjustment)
  * src/app/payment/stripe_utils.py — create_checkout_session, handle_checkout_completed,
                                   handle_payment_failed, process_refund
  * src/app/payment/routes.py    — webhook (Stripe webhook endpoint)
  * src/app/tasks/conversion_tasks.py — process_screenshot_conversion (failure/refund path),
                                   retry_failed_conversion

Conventions of the embedding:
  * Money / credit quantities are stored in the database as `Numeric(10, 2)`
    (fixed-point with two decimal places).  They are modelled here as `Int`
    measured in hundredths of a credit: `1.00` credit = `100`, `3.00` = `300`.
    All arithmetic in the source on these quantities is addition, subtraction
    and comparison, which the scaled-integer model reproduces exactly for
    two-decimal inputs (the float round-trips in the source are exact there).
  * The single contended `accounts` row of a request is modelled as one
    `Account` value; `orders`, `credits_transactions` and `conversions` are
    lists in creation order (appends model inserts).
  * External effects with no ledger/balance footprint (logging, the
    fire-and-forget low-credit e-mail task, file handling, Stripe network
    objects) are elided; outcomes of external calls (Stripe session / refund
    creation, the AI conversion) are passed in as explicit parameters.
  * A Python exception that propagates out of an operation before any commit
    is modelled as `Except.error`: the database state is unchanged.
  * `CreditsTransaction.balance_after` and `transaction_type` are declared
    `nullable=False` in models.py, but the Python constructor admits omitting
    them (leaving `None` until flush); they are therefore `Option`-typed here
    so that the construction site in `process_refund`, which omits both, is
    represented faithfully.
-/

/-- A row of `credits_transactions` (models.py, class CreditsTransaction).
Fields not touched by the embedded operations (`extra_data`, `created_at`)
are elided; list position models creation order. -/
structure CreditsTransaction where
  account_id : Nat
  order_id : Option Nat := none
  amount : Int
  balance_after : Option Int := none
  transaction_type : Option String := none
  description : String
deriving Repr, DecidableEq

/-- The credit-relevant part of an `accounts` row (models.py, class Account). -/
structure Account where
  id : Nat
  credits_remaining : Int
deriving Repr, DecidableEq

/-- A row of `orders` (models.py, class Order); audit-only JSON fields
(`extra_data`, `payment_method_type`, timestamps, tax/discount) are elided. -/
structure Order where
  id : Nat
  account_id : Nat
  amount : Int
  package_type : String
  credits_purchased : Int
  status : String
  stripe_session_id : Option String := none
  stripe_payment_id : Option String := none
deriving Repr, DecidableEq

/-- A row of `conversions` (models.py, class Conversion), restricted to the
fields the credit-compensation path reads or writes.  `retry_count` is
`NULL`-defaulted in the source but always read through `(retry_count or 0)`,
so it is a plain `Nat` here. -/
structure Conversion where
  uuid : String
  account_id : Nat
  status : String
  retry_count : Nat := 0
  error_message : Option String := none
deriving Repr, DecidableEq

/-- A `packages` row as read by `create_checkout_session` (only active
packages are ever selected; `price` is in cents, `credits` in hundredths). -/
structure Package where
  code : String
  name : String
  price : Int
  credits : Int
  is_active : Bool
deriving Repr, DecidableEq

/-- The database state visible to one account's credit operations. -/
structure DBState where
  account : Account
  orders : List Order
  transactions : List CreditsTransaction
  conversions : List Conversion
deriving Repr, DecidableEq

/-- `Order.query.get(order_id)`: first order with the given primary key. -/
def findOrder (orders : List Order) (oid : Nat) : Option Order :=
  orders.find? (fun o => o.id == oid)

/-- Persisting a mutated ORM `Order` object: every row with the same primary
key takes the new value. -/
def setOrder (orders : List Order) (o : Order) : List Order :=
  orders.map (fun x => if x.id = o.id then o else x)

/-- `Conversion.query.filter_by(uuid=...).first()`. -/
def findConversion (cs : List Conversion) (u : String) : Option Conversion :=
  cs.find? (fun c => c.uuid == u)

/-- Persisting a mutated ORM `Conversion` object (keyed by `uuid`). -/
def setConversion (cs : List Conversion) (c : Conversion) : List Conversion :=
  cs.map (fun x => if x.uuid = c.uuid then c else x)

/-- `Account.has_credits` (models.py): `float(self.credits_remaining) >= amount`. -/
def has_credits (acct : Account) (amount : Int) : Bool :=
  amount ≤ acct.credits_remaining

/-- `Account.deduct_credits` (models.py).  Raises `ValueError("Insufficient
credits")` when `has_credits` fails (nothing mutated); otherwise decrements
the balance and inserts a `usage` transaction carrying `-amount` and the new
balance, then commits.  The low-credit warning e-mail enqueued afterwards is
fire-and-forget and has no database effect, so it is elided. -/
def deduct_credits (s : DBState) (amount : Int) (description : String) :
    Except String DBState :=
  if ! has_credits s.account amount then
    Except.error "Insufficient credits"
  else
    let newBalance := s.account.credits_remaining - amount
    Except.ok
      { s with
        account := { s.account with credits_remaining := newBalance },
        transactions := s.transactions ++
          [{ account_id := s.account.id, amount := -amount,
             balance_after := some newBalance,
             transaction_type := some "usage",
             description := description }] }

/-- `Account.add_credits` (models.py).  No precondition check of any kind:
unconditionally adds `amount` and inserts a `purchase` transaction. -/
def add_credits (s : DBState) (amount : Int) (description : String)
    (order_id : Option Nat) : DBState :=
  let newBalance := s.account.credits_remaining + amount
  { s with
    account := { s.account with credits_remaining := newBalance },
    transactions := s.transactions ++
      [{ account_id := s.account.id, order_id := order_id, amount := amount,
         balance_after := some newBalance,
         transaction_type := some "purchase",
         description := description }] }

/-- `adjust_credits` (admin/routes.py).  The route rejects a missing or falsy
amount (`0.0`) and an empty (stripped) reason with a flash message and no
mutation; otherwise it adds the signed amount and inserts an `adjustment`
transaction.  `reason` is taken post-`strip()`. -/
def adjust_credits (s : DBState) (amount : Int) (reason : String) : DBState :=
  if amount = 0 ∨ reason = "" then s
  else
    let newBalance := s.account.credits_remaining + amount
    { s with
      account := { s.account with credits_remaining := newBalance },
      transactions := s.transactions ++
        [{ account_id := s.account.id, amount := amount,
           balance_after := some newBalance,
           transaction_type := some "adjustment",
           description := "Admin adjustment: " ++ reason }] }

/-- The subset of a Stripe checkout-session object the handlers read:
`session.metadata['order_id']` (absent or an order primary key) and
`session.payment_intent`. -/
structure StripeSession where
  id : String
  metadata_order_id : Option Nat := none
  payment_intent : Option String := none
deriving Repr, DecidableEq

/-- Outcome of the external `stripe.checkout.Session.create` call inside
`create_checkout_session`: a created session id, or one of the four handled
exception classes (card / invalid-request / auth / other), all of which mark
the order failed and re-raise. -/
inductive StripeSessionResult
  | ok (session_id : String)
  | err (kind : String)
deriving Repr, DecidableEq

/-- `create_checkout_session` (payment/stripe_utils.py).  Looks up the active
package (ValueError when absent), inserts a `pending` Order and commits, then
calls Stripe: on success it stores the session id on the order and returns it;
on any Stripe exception it marks the order `failed`, commits, and re-raises.
`nextOrderId` stands for the autoincremented primary key of the new row.
Returns the call's outcome together with the resulting database state. -/
def create_checkout_session (s : DBState) (packages : List Package)
    (package_code : String) (nextOrderId : Nat) (res : StripeSessionResult) :
    Except String String × DBState :=
  match packages.find? (fun p => p.code == package_code && p.is_active) with
  | none => (Except.error ("Package " ++ package_code ++ " not found or inactive"), s)
  | some package =>
    let order : Order :=
      { id := nextOrderId, account_id := s.account.id, amount := package.price,
        package_type := package.code, credits_purchased := package.credits,
        status := "pending" }
    let s1 := { s with orders := s.orders ++ [order] }
    match res with
    | StripeSessionResult.ok sid =>
        (Except.ok sid,
         { s1 with orders := setOrder s1.orders { order with stripe_session_id := some sid } })
    | StripeSessionResult.err kind =>
        (Except.error kind,
         { s1 with orders := setOrder s1.orders { order with status := "failed" } })

/-- `handle_checkout_completed` (payment/stripe_utils.py).  Missing metadata
order id, unknown order, or an already-`completed` order each return with no
side effect; otherwise the order is marked `completed`, the payment intent is
stored, and `add_credits` grants `credits_purchased` with a purchase
transaction referencing the order, all committed together. -/
def handle_checkout_completed (s : DBState) (session : StripeSession) : DBState :=
  match session.metadata_order_id with
  | none => s
  | some oid =>
    match findOrder s.orders oid with
    | none => s
    | some order =>
      if order.status = "completed" then s
      else
        let order' := { order with
          status := "completed", stripe_payment_id := session.payment_intent }
        let s' := { s with orders := setOrder s.orders order' }
        add_credits s' order.credits_purchased
          ("Purchase: " ++ order.package_type) (some order.id)

/-- `handle_payment_failed` (payment/stripe_utils.py): marks the referenced
order `failed`; no ledger or balance effect. -/
def handle_payment_failed (s : DBState) (session : StripeSession) : DBState :=
  match session.metadata_order_id with
  | none => s
  | some oid =>
    match findOrder s.orders oid with
    | none => s
    | some order => { s with orders := setOrder s.orders { order with status := "failed" } }

/-- `process_refund` (payment/stripe_utils.py).  Guards: order must exist, be
`completed`, and carry a payment id (ValueError otherwise, nothing mutated);
`stripeOk` is the outcome of the external `stripe.Refund.create` call (on
failure the exception propagates before any commit).  On success the order is
marked `refunded`; if the account's balance covers `credits_purchased` the
balance is decreased and a CreditsTransaction is inserted — note the source
omits both `transaction_type` and `balance_after` on this entry — otherwise a
warning is logged and the deduction is skipped. -/
def process_refund (s : DBState) (order_id : Nat) (stripeOk : Bool) :
    Except String DBState :=
  match findOrder s.orders order_id with
  | none => Except.error ("Order " ++ toString order_id ++ " not found")
  | some order =>
    if order.status ≠ "completed" then
      Except.error ("Order " ++ toString order_id ++ " is not completed")
    else if order.stripe_payment_id = none then
      Except.error ("Order " ++ toString order_id ++ " has no payment ID")
    else if ! stripeOk then
      Except.error "stripe refund creation failed"
    else
      let order' := { order with status := "refunded" }
      let s' := { s with orders := setOrder s.orders order' }
      let current_credits := s'.account.credits_remaining
      let refund_amount := order.credits_purchased
      if refund_amount ≤ current_credits then
        Except.ok
          { s' with
            account := { s'.account with credits_remaining := current_credits - refund_amount },
            transactions := s'.transactions ++
              [{ account_id := s'.account.id, order_id := some order.id,
                 amount := -refund_amount,
                 description := "Refund: " ++ order.package_type }] }
      else
        Except.ok s'

/-- A verified Stripe event as read by the webhook dispatcher. -/
structure StripeEvent where
  type : String
  session : StripeSession
deriving Repr, DecidableEq

/-- Outcome of `verify_webhook_signature`: a verified event, or the two
failure classes (`ValueError` for a malformed payload,
`SignatureVerificationError` — caught as a generic exception — for a bad
signature). -/
inductive VerifyResult
  | ok (event : StripeEvent)
  | invalidPayload
  | invalidSignature
deriving Repr, DecidableEq

/-- An HTTP response of the webhook endpoint: status code plus the JSON
object body as key/value pairs. -/
structure WebhookResponse where
  status : Nat
  body : List (String × String)
deriving Repr, DecidableEq

/-- Event dispatch inside the webhook's processing `try` block
(payment/routes.py).  `checkout.session.completed` and
`checkout.session.async_payment_succeeded` run `handle_checkout_completed`;
`checkout.session.async_payment_failed` runs `handle_payment_failed`;
`payment_intent.payment_failed` and `charge.refunded` only log (in
particular the `charge.refunded` branch performs no order lookup and never
calls `process_refund`); unknown types only log. -/
def webhookDispatch (s : DBState) (event : StripeEvent) : DBState :=
  if event.type = "checkout.session.completed" then
    handle_checkout_completed s event.session
  else if event.type = "checkout.session.async_payment_succeeded" then
    handle_checkout_completed s event.session
  else if event.type = "checkout.session.async_payment_failed" then
    handle_payment_failed s event.session
  else if event.type = "payment_intent.payment_failed" then s
  else if event.type = "charge.refunded" then s
  else s

/-- The `/webhook` route (payment/routes.py).  A missing `Stripe-Signature`
header, a malformed payload, or a failed signature verification each return
400 before any event interpretation.  Every verified event is acknowledged
with 200: unknown types fall through to the success response, and an
exception raised while processing (`dbFail`, with the handler's rollback
restoring the state) is caught and answered with a 200 error body so Stripe
does not retry. -/
def webhook (s : DBState) (signature : Option String) (verify : VerifyResult)
    (dbFail : Bool) : WebhookResponse × DBState :=
  match signature with
  | none => ({ status := 400, body := [("error", "Missing signature")] }, s)
  | some _ =>
    match verify with
    | VerifyResult.invalidPayload =>
        ({ status := 400, body := [("error", "Invalid payload")] }, s)
    | VerifyResult.invalidSignature =>
        ({ status := 400, body := [("error", "Invalid signature")] }, s)
    | VerifyResult.ok event =>
        if dbFail then
          ({ status := 200, body := [("status", "error"), ("message", "internal error")] }, s)
        else
          ({ status := 200, body := [("status", "success"), ("event", event.type)] },
           webhookDispatch s event)

/-- Outcome of one attempt at the external conversion pipeline (image
processing + AI call + packaging) inside `process_screenshot_conversion`. -/
inductive ConversionOutcome
  | success
  | failure (msg : String)
deriving Repr, DecidableEq

/-- The `except` block of `process_screenshot_conversion`
(tasks/conversion_tasks.py): re-fetch the conversion; mark it `failed`,
record the message, increment `retry_count`; grant the compensating
1.00 credit via `add_credits` only when the incremented count is exactly 1. -/
def conversionFailure (s : DBState) (u : String) (msg : String) : DBState :=
  match findConversion s.conversions u with
  | none => s
  | some c =>
    let c' := { c with
      status := "failed", error_message := some msg, retry_count := c.retry_count + 1 }
    let s' := { s with conversions := setConversion s.conversions c' }
    if c'.retry_count = 1 then
      add_credits s' 100 ("Refund for failed conversion " ++ u) none
    else s'

/-- `process_screenshot_conversion` (tasks/conversion_tasks.py), with the
external pipeline's outcome as a parameter.  Unknown conversions raise and
the handler finds nothing to update; otherwise the status passes through
`processing` and ends `completed` on success, or the failure handler runs. -/
def process_screenshot_conversion (s : DBState) (u : String)
    (outcome : ConversionOutcome) : DBState :=
  match findConversion s.conversions u with
  | none => s
  | some c =>
    let s0 := { s with conversions := setConversion s.conversions { c with status := "processing" } }
    match outcome with
    | ConversionOutcome.success =>
        { s0 with conversions := setConversion s0.conversions { c with status := "completed" } }
    | ConversionOutcome.failure msg => conversionFailure s0 u msg

/-- `retry_failed_conversion` (tasks/conversion_tasks.py): only a `failed`
conversion with fewer than 3 recorded attempts is reset to `pending` (error
message cleared — `retry_count` is NOT reset) and re-processed. -/
def retry_failed_conversion (s : DBState) (u : String)
    (outcome : ConversionOutcome) : DBState :=
  match findConversion s.conversions u with
  | none => s
  | some c =>
    if c.status ≠ "failed" then s
    else if 3 ≤ c.retry_count then s
    else
      let s' := { s with
        conversions := setConversion s.conversions
          { c with status := "pending", error_message := none } }
      process_screenshot_conversion s' u outcome

/-- One committed credit operation of the subsystem, for stating ledger
invariants over operation sequences. -/
inductive CreditOp
  | deduct (amount : Int) (description : String)
  | add (amount : Int) (description : String) (order_id : Option Nat)
  | adjust (amount : Int) (reason : String)
  | refund (order_id : Nat)
deriving Repr, DecidableEq

/-- Run one operation; a raised error (no commit) leaves the state unchanged. -/
def applyOp (s : DBState) (op : CreditOp) : DBState :=
  match op with
  | CreditOp.deduct a d =>
      match deduct_credits s a d with
      | Except.ok s' => s'
      | Except.error _ => s
  | CreditOp.add a d oid => add_credits s a d oid
  | CreditOp.adjust a r => adjust_credits s a r
  | CreditOp.refund oid =>
      match process_refund s oid true with
      | Except.ok s' => s'
      | Except.error _ => s

/-- Run a sequence of credit operations left to right. -/
def applyOps (s : DBState) (ops : List CreditOp) : DBState :=
  ops.foldl applyOp s

/-- Number of compensating "failed conversion" credit grants recorded for a
conversion (entries whose description is the one `conversionFailure` writes). -/
def compCreditCount (s : DBState) (u : String) : Nat :=
  (s.transactions.filter
    (fun t => t.description == "Refund for failed conversion " ++ u)).length

/-- Characterization of `deduct_credits`: the insufficient-credits error is
raised exactly when the balance is below the requested amount, and the
success state is the balance decrement plus the appended `usage` entry. -/
theorem deduct_credits_eq (s : DBState) (amount : Int) (d : String) :
    deduct_credits s amount d =
      if s.account.credits_remaining < amount then
        Except.error "Insufficient credits"
      else
        Except.ok { s with
          account := { s.account with
            credits_remaining := s.account.credits_remaining - amount },
          transactions := s.transactions ++
            [{ account_id := s.account.id, amount := -amount,
               balance_after := some (s.account.credits_remaining - amount),
               transaction_type := some "usage", description := d }] } := by
  by_cases h : amount ≤ s.account.credits_remaining
  · simp [deduct_credits, has_credits, h, not_lt.mpr h]
  · simp [deduct_credits, has_credits, h, not_le.mp h]

/-- An order returned by `findOrder` carries the looked-up primary key. -/
theorem findOrder_id_eq {orders : List Order} {oid : Nat} {o : Order}
    (h : findOrder orders oid = some o) : o.id = oid := by
  simpa using List.find?_some h

/-- After persisting an updated order with the looked-up key, the lookup
returns the updated order. -/
theorem findOrder_setOrder {orders : List Order} {oid : Nat} {o : Order}
    (h : findOrder orders oid = some o) (o' : Order) (hid : o'.id = oid) :
    findOrder (setOrder orders o') oid = some o' := by
  have hoid : o.id = oid := findOrder_id_eq h
  have hcomp : ((fun x : Order => x.id == oid) ∘ fun x => if x.id = o'.id then o' else x)
      = fun x : Order => x.id == oid := by
    funext x
    by_cases hx : x.id = o'.id
    · simp [hx, hid]
    · simp [hx]
  unfold findOrder setOrder
  rw [List.find?_map _ orders, hcomp]
  unfold findOrder at h
  rw [h]
  simp [hoid, hid]

/-- A conversion returned by `findConversion` carries the looked-up uuid. -/
theorem findConversion_uuid_eq {cs : List Conversion} {u : String} {c : Conversion}
    (h : findConversion cs u = some c) : c.uuid = u := by
  simpa using List.find?_some h

/-- After persisting an updated conversion with the looked-up uuid, the
lookup returns the updated conversion. -/
theorem findConversion_setConversion {cs : List Conversion} {u : String}
    {c : Conversion} (h : findConversion cs u = some c) (c' : Conversion)
    (hid : c'.uuid = u) :
    findConversion (setConversion cs c') u = some c' := by
  have huid : c.uuid = u := findConversion_uuid_eq h
  have hcomp : ((fun x : Conversion => x.uuid == u) ∘ fun x => if x.uuid = c'.uuid then c' else x)
      = fun x : Conversion => x.uuid == u := by
    funext x
    by_cases hx : x.uuid = c'.uuid
    · simp [hx, hid]
    · simp [hx]
  unfold findConversion setConversion
  rw [List.find?_map _ cs, hcomp]
  unfold findConversion at h
  rw [h]
  simp [huid, hid]

/-- `add_credits` grows the compensation-grant count for a conversion by one
exactly when the description is the compensation description. -/
theorem compCreditCount_add_credits (s : DBState) (a : Int) (d : String)
    (oid : Option Nat) (u : String) :
    compCreditCount (add_credits s a d oid) u =
      compCreditCount s u +
        (if d = "Refund for failed conversion " ++ u then 1 else 0) := by
  by_cases hd : d = "Refund for failed conversion " ++ u <;>
    simp [compCreditCount, add_credits, List.filter_append, hd]

/-- A fresh account at the model's default signup balance of 3.00 credits
(`credits_remaining` defaults to `3.00` in models.py). -/
def scen2_state : DBState :=
  { account := { id := 1, credits_remaining := 300 },
    orders := [], transactions := [], conversions := [] }

/-- Claim C4: `deduct_credits` raises the insufficient-credits error if and
only if the balance is below the amount (and then nothing is mutated — the
error propagates before any commit); otherwise it decreases the balance by
the amount and inserts a `usage` entry with `amount = -amount` and
`balance_after` the new balance.  From 3.00, three deducts of 1.00 succeed
(2.00, 1.00, 0.00) and a fourth fails leaving the balance 0.00. -/
theorem deduct_credits_spec :
    (∀ (s : DBState) (amount : Int) (d : String),
      deduct_credits s amount d =
        if s.account.credits_remaining < amount then
          Except.error "Insufficient credits"
        else
          Except.ok { s with
            account := { s.account with
              credits_remaining := s.account.credits_remaining - amount },
            transactions := s.transactions ++
              [{ account_id := s.account.id, amount := -amount,
                 balance_after := some (s.account.credits_remaining - amount),
                 transaction_type := some "usage", description := d }] }) ∧
    (applyOps scen2_state
        (List.replicate 1 (CreditOp.deduct 100 "conversion"))).account.credits_remaining = 200 ∧
    (applyOps scen2_state
        (List.replicate 2 (CreditOp.deduct 100 "conversion"))).account.credits_remaining = 100 ∧
    (applyOps scen2_state
        (List.replicate 3 (CreditOp.deduct 100 "conversion"))).account.credits_remaining = 0 ∧
    deduct_credits
        (applyOps scen2_state (List.replicate 3 (CreditOp.deduct 100 "conversion")))
        100 "conversion" = Except.error "Insufficient credits" := by
  refine ⟨deduct_credits_eq, by decide, by decide, by decide, rfl⟩

/-- Claim C10: `add_credits` enforces no precondition on its amount: for every
state and every amount — zero and negative included — it unconditionally adds
the amount to the balance and appends a `purchase`-kind entry carrying that
amount; in particular a negative amount silently decreases the balance
(3.00 + (-2.00) = 1.00). -/
theorem add_credits_no_precondition :
    (∀ (s : DBState) (amount : Int) (d : String) (oid : Option Nat),
      (add_credits s amount d oid).account.credits_remaining
          = s.account.credits_remaining + amount ∧
      (add_credits s amount d oid).transactions = s.transactions ++
        [{ account_id := s.account.id, order_id := oid, amount := amount,
           balance_after := some (s.account.credits_remaining + amount),
           transaction_type := some "purchase", description := d }]) ∧
    (add_credits scen2_state (-200) "negative add" none).account.credits_remaining = 100 := by
  exact ⟨fun s a d oid => ⟨rfl, rfl⟩, by decide⟩

/-- Claim C1 counterexample: from the non-negative starting balance 3.00, a
single committed admin adjustment of -5.00 (nonzero amount, nonempty reason,
so the mutation commits and appends a ledger entry) leaves the balance at
-2.00 < 0, refuting the no-negative-balance invariant as stated. -/
theorem adjust_negative_balance_cex :
    0 ≤ scen2_state.account.credits_remaining ∧
    (applyOp scen2_state (CreditOp.adjust (-500) "manual correction")).transactions.length = 1 ∧
    (applyOp scen2_state (CreditOp.adjust (-500) "manual correction")).account.credits_remaining
        = -200 ∧
    (applyOp scen2_state (CreditOp.adjust (-500) "manual correction")).account.credits_remaining
        < 0 := by
  decide

/-- A completed, refundable order (payment captured) on an account whose
balance covers the purchased credits. -/
def refund_state : DBState :=
  { account := { id := 7, credits_remaining := 1000 },
    orders := [{ id := 1, account_id := 7, amount := 999, package_type := "starter",
                 credits_purchased := 1000, status := "completed",
                 stripe_session_id := some "cs_1", stripe_payment_id := some "pi_1" }],
    transactions := [], conversions := [] }

/-- Same order, but the account has already spent half the credits. -/
def refund_state_low : DBState :=
  { account := { id := 7, credits_remaining := 500 },
    orders := [{ id := 1, account_id := 7, amount := 999, package_type := "starter",
                 credits_purchased := 1000, status := "completed",
                 stripe_session_id := some "cs_1", stripe_payment_id := some "pi_1" }],
    transactions := [], conversions := [] }

/-- Same order, still `pending` (payment never captured). -/
def refund_state_pending : DBState :=
  { account := { id := 7, credits_remaining := 1000 },
    orders := [{ id := 1, account_id := 7, amount := 999, package_type := "starter",
                 credits_purchased := 1000, status := "pending",
                 stripe_session_id := some "cs_1", stripe_payment_id := some "pi_1" }],
    transactions := [], conversions := [] }

/-- Claim C2 (code bug, evaluated at the failing input): refunding completed
order 1 against a covering balance commits successfully, but the single
appended CreditsTransaction carries `balance_after = none` — `process_refund`
omits the field although the column is `nullable=False` — so no committed
refund entry satisfies `balance_after = previous balance + amount` and
per-entry ledger reconstruction breaks on the refund path (the signed
`amount` itself, -10.00, does still match the balance change 10.00 → 0.00). -/
theorem refund_entry_lacks_balance_after :
    (process_refund refund_state 1 true).toOption.map
        (fun s' => (s'.account.credits_remaining,
                    s'.transactions.map (fun t => (t.amount, t.balance_after))))
      = some (0, [(-1000, none)]) := by
  decide

/-- Claim C6 (code bug, evaluated at the failing input): `process_refund`
requires a completed order (a pending order fails with an error and nothing
changes), marks the order `refunded`, and — when the balance covers the
purchased credits — decreases the balance and records an entry with negative
amount, skipping the deduction with a warning when the balance is short (so
the balance never goes negative); but the recorded entry's
`transaction_type` is `none`, not `"refund"` — the source never sets the
`nullable=False` kind column on this entry. -/
theorem refund_entry_lacks_refund_kind :
    ((process_refund refund_state 1 true).toOption.map
        (fun s' => ((findOrder s'.orders 1).map Order.status,
                    s'.transactions.map (fun t => (t.amount, t.transaction_type))))
      = some (some "refunded", [(-1000, none)])) ∧
    ((process_refund refund_state_low 1 true).toOption.map
        (fun s' => ((findOrder s'.orders 1).map Order.status,
                    s'.account.credits_remaining, s'.transactions))
      = some (some "refunded", 500, [])) ∧
    process_refund refund_state_pending 1 true
      = Except.error "Order 1 is not completed" := by
  refine ⟨by decide, by decide, rfl⟩

/-- A verified `charge.refunded` webhook event whose metadata identifies the
refundable order. -/
def charge_refunded_event : StripeEvent :=
  { type := "charge.refunded",
    session := { id := "cs_1", metadata_order_id := some 1,
                 payment_intent := some "pi_1" } }

/-- Claim C5 counterexample: delivering a verified `charge.refunded` event
for completed, refundable order 1 is acknowledged with 200 but leaves the
database exactly unchanged — the order is still `completed` (not `refunded`)
and no compensating ledger debit exists — so the webhook does not look up the
order and does not call the refund operation. -/
theorem webhook_charge_refunded_cex :
    (webhook refund_state (some "t=1,v1=abc")
        (VerifyResult.ok charge_refunded_event) false).1.status = 200 ∧
    (webhook refund_state (some "t=1,v1=abc")
        (VerifyResult.ok charge_refunded_event) false).2 = refund_state ∧
    ((webhook refund_state (some "t=1,v1=abc")
        (VerifyResult.ok charge_refunded_event) false).2.orders.map Order.status)
      = ["completed"] ∧
    (webhook refund_state (some "t=1,v1=abc")
        (VerifyResult.ok charge_refunded_event) false).2.transactions = [] := by
  refine ⟨?_, ?_, ?_, ?_⟩ <;> decide

/-- Claim C8: the webhook answers 400 exactly when the signature header is
missing, the payload is malformed, or signature verification fails — all
before any event interpretation — and answers 200 with a JSON acknowledgment
body for every successfully verified event, unknown event types and events
whose internal processing raises an exception included; the body's leading
key is `error` in the 400 cases and `status` in the 200 cases. -/
theorem webhook_status_spec :
    ∀ (s : DBState) (sig : Option String) (vr : VerifyResult) (dbFail : Bool),
      ((webhook s sig vr dbFail).1.status =
        if sig = none ∨ vr = VerifyResult.invalidPayload ∨ vr = VerifyResult.invalidSignature
        then 400 else 200) ∧
      ((webhook s sig vr dbFail).1.body.head?.map Prod.fst =
        some (if sig = none ∨ vr = VerifyResult.invalidPayload ∨ vr = VerifyResult.invalidSignature
              then "error" else "status")) := by
  intro s sig vr dbFail
  rcases sig with _ | sig <;> rcases vr with event | _ | _ <;> cases dbFail <;>
    simp [webhook]

/-- Claim C5 amended: on a verified `charge_refunded` event the webhook only
logs the charge and acknowledges with 200 — it performs no order lookup and
never calls `process_refund`, so for every database state the state comes
back unchanged (no status change to `refunded`, no compensating debit). -/
theorem webhook_charge_refunded_logs_only (s : DBState) (sig : String)
    (ev : StripeEvent) (h : ev.type = "charge.refunded") :
    webhook s (some sig) (VerifyResult.ok ev) false
      = ({ status := 200, body := [("status", "success"), ("event", ev.type)] }, s) := by
  simp [webhook, webhookDispatch, h]

/-- Witness for the amended C5 theorem at a concrete refundable state. -/
theorem webhook_charge_refunded_logs_only_witness :
    webhook refund_state_low (some "t=1,v1=abc")
        (VerifyResult.ok charge_refunded_event) false
      = ({ status := 200, body := [("status", "success"), ("event", "charge.refunded")] },
         refund_state_low) :=
  webhook_charge_refunded_logs_only refund_state_low "t=1,v1=abc"
    charge_refunded_event rfl

/-- Claim C9: initiating a checkout has no ledger effect — for every state,
package table and Stripe outcome (success or any of the handled exceptions),
`create_checkout_session` leaves the account row and the transactions table
exactly unchanged — and when the package is found and Stripe succeeds it has
inserted exactly one new Order, created `pending` (it still carries status
`pending` with the session id stored), for a fresh order id. -/
theorem create_checkout_session_no_ledger_effect :
    (∀ (s : DBState) (packages : List Package) (code : String) (nid : Nat)
        (res : StripeSessionResult),
      (create_checkout_session s packages code nid res).2.account = s.account ∧
      (create_checkout_session s packages code nid res).2.transactions = s.transactions) ∧
    (∀ (s : DBState) (packages : List Package) (code : String) (nid : Nat)
        (sid : String) (package : Package),
      packages.find? (fun p => p.code == code && p.is_active) = some package →
      (∀ o ∈ s.orders, o.id ≠ nid) →
      (create_checkout_session s packages code nid (StripeSessionResult.ok sid)).2.orders
        = s.orders ++
          [{ id := nid, account_id := s.account.id, amount := package.price,
             package_type := package.code, credits_purchased := package.credits,
             status := "pending", stripe_session_id := some sid }]) := by
  constructor
  · intro s packages code nid res
    cases hp : packages.find? (fun p => p.code == code && p.is_active) <;>
      cases res <;> simp [create_checkout_session, hp]
  · intro s packages code nid sid package hp hfresh
    have hmap : s.orders.map
        (fun x => if x.id = nid then
          { id := nid, account_id := s.account.id, amount := package.price,
            package_type := package.code, credits_purchased := package.credits,
            status := "pending", stripe_session_id := some sid,
            stripe_payment_id := none } else x) = s.orders := by
      have := List.map_congr_left (l := s.orders)
        (f := fun x => if x.id = nid then
          { id := nid, account_id := s.account.id, amount := package.price,
            package_type := package.code, credits_purchased := package.credits,
            status := "pending", stripe_session_id := some sid,
            stripe_payment_id := none } else x) (g := id)
        (fun o ho => by simp [hfresh o ho])
      simpa using this
    simp [create_checkout_session, hp, setOrder, hmap]

/-- Witness for the C9 theorem's pending-order conjunct at a concrete input. -/
theorem create_checkout_session_no_ledger_effect_witness :
    (create_checkout_session scen2_state
        [{ code := "starter", name := "Starter", price := 999, credits := 1000,
           is_active := true }] "starter" 1 (StripeSessionResult.ok "cs_9")).2.orders
      = scen2_state.orders ++
        [{ id := 1, account_id := scen2_state.account.id, amount := (999 : Int),
           package_type := "starter", credits_purchased := 1000,
           status := "pending", stripe_session_id := some "cs_9" }] :=
  create_checkout_session_no_ledger_effect.2 scen2_state
    [{ code := "starter", name := "Starter", price := 999, credits := 1000,
       is_active := true }] "starter" 1 "cs_9"
    { code := "starter", name := "Starter", price := 999, credits := 1000,
      is_active := true } (by decide) (by decide)

/-- The guard restoring the no-negative-balance invariant: the two unguarded
credit paths (`add_credits` and the signed admin adjustment) only receive
non-negative amounts; `deduct_credits` and `process_refund` check the balance
themselves. -/
def nonNegCreditAmounts : CreditOp → Bool
  | CreditOp.add a _ _ => 0 ≤ a
  | CreditOp.adjust a _ => 0 ≤ a
  | _ => true

/-- One committed operation whose add/adjust amount is non-negative keeps a
non-negative balance non-negative. -/
theorem applyOp_balance_nonneg (s : DBState) (op : CreditOp)
    (h0 : 0 ≤ s.account.credits_remaining)
    (h : nonNegCreditAmounts op = true) :
    0 ≤ (applyOp s op).account.credits_remaining := by
  cases op with
  | deduct a d =>
    simp only [applyOp, deduct_credits_eq]
    by_cases hlt : s.account.credits_remaining < a
    · simpa [hlt] using h0
    · simp only [hlt, if_false]
      simp only [not_lt] at hlt
      simp
      omega
  | add a d oid =>
    have ha : (0 : Int) ≤ a := by simpa [nonNegCreditAmounts] using h
    simp only [applyOp, add_credits]
    simp
    omega
  | adjust a r =>
    have ha : (0 : Int) ≤ a := by simpa [nonNegCreditAmounts] using h
    simp only [applyOp, adjust_credits]
    by_cases hg : a = 0 ∨ r = ""
    · simpa [hg] using h0
    · simp [hg]
      omega
  | refund oid =>
    simp only [applyOp]
    cases hf : findOrder s.orders oid with
    | none => simpa [process_refund, hf] using h0
    | some order =>
      by_cases hst : order.status ≠ "completed"
      · simpa [process_refund, hf, hst] using h0
      · by_cases hpi : order.stripe_payment_id = none
        · simpa [process_refund, hf, hst, hpi] using h0
        · by_cases hcov : order.credits_purchased ≤ s.account.credits_remaining
          · simp [process_refund, hf, hst, hpi, hcov]
          · simpa [process_refund, hf, hst, hpi, hcov] using h0

/-- Claim C1 amended: starting from a non-negative balance, any sequence of
committed credit operations in which every `add_credits` amount and every
admin-adjustment amount is non-negative keeps `credits_remaining ≥ 0` after
every operation (the deduction and refund paths are balance-guarded by the
source itself, so the restriction only concerns the two unguarded credit
paths). -/
theorem no_negative_balance_amended (s : DBState) (ops : List CreditOp)
    (h0 : 0 ≤ s.account.credits_remaining)
    (h : ∀ op ∈ ops, nonNegCreditAmounts op = true) :
    0 ≤ (applyOps s ops).account.credits_remaining := by
  induction ops generalizing s with
  | nil => simpa [applyOps] using h0
  | cons op rest ih =>
    have hstep := applyOp_balance_nonneg s op h0 (h op (List.mem_cons_self op rest))
    have htail : ∀ o ∈ rest, nonNegCreditAmounts o = true :=
      fun o ho => h o (List.mem_cons_of_mem op ho)
    simpa [applyOps] using ih (applyOp s op) hstep htail

/-- Witness for the amended C1 theorem: a concrete mixed sequence (deduct,
purchase, positive adjustment, deduct) from the signup balance. -/
theorem no_negative_balance_amended_witness :
    0 ≤ (applyOps scen2_state
      [CreditOp.deduct 100 "conversion",
       CreditOp.add 500 "purchase" (some 1),
       CreditOp.adjust 200 "goodwill bonus",
       CreditOp.deduct 400 "conversion"]).account.credits_remaining :=
  no_negative_balance_amended scen2_state
    [CreditOp.deduct 100 "conversion",
     CreditOp.add 500 "purchase" (some 1),
     CreditOp.adjust 200 "goodwill bonus",
     CreditOp.deduct 400 "conversion"] (by decide) (by decide)

/-- The already-completed guard of `handle_checkout_completed`: when the
session's order is found and already `completed`, the handler returns the
state unchanged. -/
theorem handle_checkout_completed_noop (t : DBState) (session : StripeSession)
    (oid : Nat) (o : Order) (hm : session.metadata_order_id = some oid)
    (hf : findOrder t.orders oid = some o) (hc : o.status = "completed") :
    handle_checkout_completed t session = t := by
  simp [handle_checkout_completed, hm, hf, hc]

/-- Claim C3: order completion is idempotent.  If the session's order is
already `completed`, `handle_checkout_completed` returns with no side
effects; and starting from a not-yet-completed order, running the handler
twice equals running it once — the double invocation yields exactly one
`purchase` ledger entry and exactly one balance increment of
`credits_purchased`, not two. -/
theorem handle_checkout_completed_idempotent (s : DBState)
    (session : StripeSession) (oid : Nat) (o : Order)
    (hm : session.metadata_order_id = some oid)
    (hf : findOrder s.orders oid = some o) :
    (o.status = "completed" → handle_checkout_completed s session = s) ∧
    (o.status ≠ "completed" →
      handle_checkout_completed (handle_checkout_completed s session) session
          = handle_checkout_completed s session ∧
      (handle_checkout_completed s session).account.credits_remaining
          = s.account.credits_remaining + o.credits_purchased ∧
      (handle_checkout_completed s session).transactions
          = s.transactions ++
            [{ account_id := s.account.id, order_id := some o.id,
               amount := o.credits_purchased,
               balance_after := some (s.account.credits_remaining + o.credits_purchased),
               transaction_type := some "purchase",
               description := "Purchase: " ++ o.package_type }]) := by
  constructor
  · intro hc
    simp [handle_checkout_completed, hm, hf, hc]
  · intro hc
    have hoid : o.id = oid := findOrder_id_eq hf
    have h1 : handle_checkout_completed s session
        = add_credits
            { s with orders := setOrder s.orders { o with status := "completed", stripe_payment_id := session.payment_intent } }
            o.credits_purchased ("Purchase: " ++ o.package_type) (some o.id) := by
      simp [handle_checkout_completed, hm, hf, hc]
    have hfind2 : findOrder (handle_checkout_completed s session).orders oid
        = some { o with status := "completed",
                        stripe_payment_id := session.payment_intent } := by
      rw [h1]
      exact findOrder_setOrder hf _ hoid
    refine ⟨?_, ?_, ?_⟩
    · exact handle_checkout_completed_noop _ session oid _ hm hfind2 rfl
    · rw [h1]
      simp [add_credits]
    · rw [h1]
      simp [add_credits]

/-- A pending, paid-for order awaiting its completion webhook. -/
def pending_order_state : DBState :=
  { account := { id := 7, credits_remaining := 300 },
    orders := [{ id := 1, account_id := 7, amount := 999, package_type := "starter",
                 credits_purchased := 1000, status := "pending",
                 stripe_session_id := some "cs_1" }],
    transactions := [], conversions := [] }

/-- The pending order of `pending_order_state`. -/
def pending_order : Order :=
  { id := 1, account_id := 7, amount := 999, package_type := "starter",
    credits_purchased := 1000, status := "pending",
    stripe_session_id := some "cs_1" }

/-- The completed-checkout session referencing order 1. -/
def session_order1 : StripeSession :=
  { id := "cs_1", metadata_order_id := some 1, payment_intent := some "pi_1" }

/-- Witness for the C3 theorem: replaying the completion webhook for the
concrete pending order credits once, not twice. -/
theorem handle_checkout_completed_idempotent_witness :
    handle_checkout_completed
        (handle_checkout_completed pending_order_state session_order1) session_order1
      = handle_checkout_completed pending_order_state session_order1 ∧
    (handle_checkout_completed pending_order_state session_order1).account.credits_remaining
      = pending_order_state.account.credits_remaining + pending_order.credits_purchased ∧
    (handle_checkout_completed pending_order_state session_order1).transactions
      = pending_order_state.transactions ++
        [{ account_id := pending_order_state.account.id, order_id := some pending_order.id,
           amount := pending_order.credits_purchased,
           balance_after := some (pending_order_state.account.credits_remaining
             + pending_order.credits_purchased),
           transaction_type := some "purchase",
           description := "Purchase: " ++ pending_order.package_type }] :=
  (handle_checkout_completed_idempotent pending_order_state session_order1 1
    pending_order rfl (by decide)).2 (by decide)

/-- Characterization of the failure path of `process_screenshot_conversion`:
the conversion is marked `failed` with an incremented `retry_count`, and the
compensating 1.00 credit is granted exactly when the incremented count is 1. -/
theorem process_failure_eq (s : DBState) (u msg : String) (c : Conversion)
    (hf : findConversion s.conversions u = some c) :
    process_screenshot_conversion s u (ConversionOutcome.failure msg)
      = if c.retry_count + 1 = 1 then
          add_credits
            { s with conversions := setConversion (setConversion s.conversions { c with status := "processing" }) { c with status := "failed", error_message := some msg, retry_count := c.retry_count + 1 } }
            100 ("Refund for failed conversion " ++ u) none
        else
          { s with conversions := setConversion (setConversion s.conversions { c with status := "processing" }) { c with status := "failed", error_message := some msg, retry_count := c.retry_count + 1 } } := by
  have hu : c.uuid = u := findConversion_uuid_eq hf
  have hfp : findConversion (setConversion s.conversions { c with status := "processing" }) u
      = some { c with status := "processing" } :=
    findConversion_setConversion hf _ hu
  simp [process_screenshot_conversion, conversionFailure, hf, hfp]

/-- Characterization of `retry_failed_conversion` on a retryable conversion:
the row is reset to `pending` with the error cleared (`retry_count` kept) and
processing runs again. -/
theorem retry_eq (s : DBState) (u : String) (outcome : ConversionOutcome)
    (c : Conversion) (hf : findConversion s.conversions u = some c)
    (hst : c.status = "failed") (hrc : c.retry_count < 3) :
    retry_failed_conversion s u outcome
      = process_screenshot_conversion
          { s with conversions := setConversion s.conversions { c with status := "pending", error_message := none } }
          u outcome := by
  simp [retry_failed_conversion, hf, hst, Nat.not_le.mpr hrc]

/-- A failure of a conversion that has already failed at least once grants no
compensating credit: balance and ledger are untouched. -/
theorem no_grant_on_nonfirst_failure (t : DBState) (u msg : String)
    (c : Conversion) (hf : findConversion t.conversions u = some c)
    (hrc : c.retry_count ≠ 0) :
    (process_screenshot_conversion t u (ConversionOutcome.failure msg)).account
        = t.account ∧
    (process_screenshot_conversion t u (ConversionOutcome.failure msg)).transactions
        = t.transactions := by
  have hne : ¬ (c.retry_count + 1 = 1) := by omega
  rw [process_failure_eq t u msg c hf, if_neg hne]
  exact ⟨rfl, rfl⟩

/-- Retrying a conversion that has already failed at least once and failing
again grants no compensating credit either: balance and ledger untouched. -/
theorem retry_no_second_grant (t : DBState) (u msg : String)
    (c : Conversion) (hf : findConversion t.conversions u = some c)
    (hrc : c.retry_count ≠ 0) :
    (retry_failed_conversion t u (ConversionOutcome.failure msg)).account
        = t.account ∧
    (retry_failed_conversion t u (ConversionOutcome.failure msg)).transactions
        = t.transactions := by
  have hu : c.uuid = u := findConversion_uuid_eq hf
  by_cases hst : c.status = "failed"
  · by_cases hrc3 : 3 ≤ c.retry_count
    · have : retry_failed_conversion t u (ConversionOutcome.failure msg) = t := by
        simp [retry_failed_conversion, hf, hst, hrc3]
      rw [this]
      exact ⟨rfl, rfl⟩
    · rw [retry_eq t u (ConversionOutcome.failure msg) c hf hst (Nat.lt_of_not_le hrc3)]
      have hf2 : findConversion
          ({ t with conversions := setConversion t.conversions { c with status := "pending", error_message := none } } : DBState).conversions u
          = some { c with status := "pending", error_message := none } :=
        findConversion_setConversion hf _ hu
      have h := no_grant_on_nonfirst_failure
        { t with conversions := setConversion t.conversions { c with status := "pending", error_message := none } }
        u msg { c with status := "pending", error_message := none } hf2 hrc
      exact ⟨h.1, h.2⟩
  · have : retry_failed_conversion t u (ConversionOutcome.failure msg) = t := by
      simp [retry_failed_conversion, hf, hst]
    rw [this]
    exact ⟨rfl, rfl⟩

/-- Claim C7 amended: the compensating credit for a failed conversion is
granted at most once per conversion.  On the first failure (`retry_count`
was 0) 1.00 credit is added back — recorded via `add_credits` as a
`purchase`-kind entry with description `Refund for failed conversion <uuid>`,
restoring the pre-deduction balance — and a subsequent retry that fails again
grants nothing further; a failure of a conversion that has already failed
before (`retry_count ≥ 1`) grants nothing at all. -/
theorem conversion_refund_at_most_once (s : DBState) (u msg msg2 : String)
    (c : Conversion) (hf : findConversion s.conversions u = some c) :
    (c.retry_count = 0 →
      (process_screenshot_conversion s u (ConversionOutcome.failure msg)).account.credits_remaining
          = s.account.credits_remaining + 100 ∧
      (process_screenshot_conversion s u (ConversionOutcome.failure msg)).transactions
          = s.transactions ++
            [{ account_id := s.account.id, order_id := none, amount := 100,
               balance_after := some (s.account.credits_remaining + 100),
               transaction_type := some "purchase",
               description := "Refund for failed conversion " ++ u }] ∧
      compCreditCount (process_screenshot_conversion s u (ConversionOutcome.failure msg)) u
          = compCreditCount s u + 1 ∧
      compCreditCount
          (retry_failed_conversion
            (process_screenshot_conversion s u (ConversionOutcome.failure msg)) u
            (ConversionOutcome.failure msg2)) u
          = compCreditCount s u + 1 ∧
      (retry_failed_conversion
          (process_screenshot_conversion s u (ConversionOutcome.failure msg)) u
          (ConversionOutcome.failure msg2)).account.credits_remaining
          = s.account.credits_remaining + 100) ∧
    (1 ≤ c.retry_count →
      (process_screenshot_conversion s u (ConversionOutcome.failure msg)).account.credits_remaining
          = s.account.credits_remaining ∧
      compCreditCount (process_screenshot_conversion s u (ConversionOutcome.failure msg)) u
          = compCreditCount s u) := by
  have hu : c.uuid = u := findConversion_uuid_eq hf
  constructor
  · intro h0
    have h1 : process_screenshot_conversion s u (ConversionOutcome.failure msg)
        = add_credits
            { s with conversions := setConversion (setConversion s.conversions { c with status := "processing" }) { c with status := "failed", error_message := some msg, retry_count := 1 } }
            100 ("Refund for failed conversion " ++ u) none := by
      rw [process_failure_eq s u msg c hf]
      simp [h0]
    have hfp : findConversion (setConversion s.conversions { c with status := "processing" }) u
        = some { c with status := "processing" } :=
      findConversion_setConversion hf _ hu
    have hff : findConversion
        (process_screenshot_conversion s u (ConversionOutcome.failure msg)).conversions u
        = some { c with status := "failed", error_message := some msg, retry_count := 1 } := by
      rw [h1]
      exact findConversion_setConversion hfp _ hu
    have hbal : (process_screenshot_conversion s u (ConversionOutcome.failure msg)).account.credits_remaining
        = s.account.credits_remaining + 100 := by
      rw [h1]
      simp [add_credits]
    have htx : (process_screenshot_conversion s u (ConversionOutcome.failure msg)).transactions
        = s.transactions ++
          [{ account_id := s.account.id, order_id := none, amount := 100,
             balance_after := some (s.account.credits_remaining + 100),
             transaction_type := some "purchase",
             description := "Refund for failed conversion " ++ u }] := by
      rw [h1]
      simp [add_credits]
    have hcnt : compCreditCount (process_screenshot_conversion s u (ConversionOutcome.failure msg)) u
        = compCreditCount s u + 1 := by
      rw [h1, compCreditCount_add_credits]
      simp [compCreditCount]
    have hretry := retry_no_second_grant
      (process_screenshot_conversion s u (ConversionOutcome.failure msg)) u msg2
      { c with status := "failed", error_message := some msg, retry_count := 1 }
      hff (by simp)
    refine ⟨hbal, htx, hcnt, ?_, ?_⟩
    · rw [show compCreditCount
          (retry_failed_conversion (process_screenshot_conversion s u (ConversionOutcome.failure msg)) u
            (ConversionOutcome.failure msg2)) u
        = compCreditCount (process_screenshot_conversion s u (ConversionOutcome.failure msg)) u from by
          simp [compCreditCount, hretry.2]]
      exact hcnt
    · rw [hretry.1]
      exact hbal
  · intro h1le
    have h := no_grant_on_nonfirst_failure s u msg c hf (by omega)
    refine ⟨by rw [h.1], ?_⟩
    simp [compCreditCount, h.2]

/-- An account mid-conversion: 1.00 credit was already deducted (2.00 of the
signup 3.00 remain) and conversion `u-1` has never failed before. -/
def conv_state : DBState :=
  { account := { id := 7, credits_remaining := 200 },
    orders := [],
    transactions := [],
    conversions := [{ uuid := "u-1", account_id := 7, status := "processing",
                      retry_count := 0 }] }

/-- The conversion row of `conv_state`. -/
def conv_row : Conversion :=
  { uuid := "u-1", account_id := 7, status := "processing", retry_count := 0 }

/-- Claim C7 counterexample: the compensating entry written on the first
failure of conversion `u-1` is a `purchase`-kind CreditsTransaction (written
through `add_credits`), not a `refund`-kind one as the claim states — no
entry with `transaction_type = "refund"` exists after the compensation. -/
theorem conversion_refund_kind_cex :
    ((process_screenshot_conversion conv_state "u-1"
        (ConversionOutcome.failure "AI conversion failed")).transactions.map
          (fun t => (t.amount, t.transaction_type)))
      = [(100, some "purchase")] ∧
    ((process_screenshot_conversion conv_state "u-1"
        (ConversionOutcome.failure "AI conversion failed")).transactions.filter
          (fun t => t.transaction_type == some "refund")) = [] := by
  refine ⟨?_, ?_⟩ <;> decide

/-- Witness for the amended C7 theorem: first failure of the concrete
conversion grants once, and a retried second failure grants nothing more. -/
theorem conversion_refund_at_most_once_witness :
    (process_screenshot_conversion conv_state "u-1"
        (ConversionOutcome.failure "AI conversion failed")).account.credits_remaining
      = conv_state.account.credits_remaining + 100 ∧
    (process_screenshot_conversion conv_state "u-1"
        (ConversionOutcome.failure "AI conversion failed")).transactions
      = conv_state.transactions ++
        [{ account_id := conv_state.account.id, order_id := none, amount := 100,
           balance_after := some (conv_state.account.credits_remaining + 100),
           transaction_type := some "purchase",
           description := "Refund for failed conversion " ++ "u-1" }] ∧
    compCreditCount (process_screenshot_conversion conv_state "u-1"
        (ConversionOutcome.failure "AI conversion failed")) "u-1"
      = compCreditCount conv_state "u-1" + 1 ∧
    compCreditCount
        (retry_failed_conversion
          (process_screenshot_conversion conv_state "u-1"
            (ConversionOutcome.failure "AI conversion failed")) "u-1"
          (ConversionOutcome.failure "AI timeout")) "u-1"
      = compCreditCount conv_state "u-1" + 1 ∧
    (retry_failed_conversion
        (process_screenshot_conversion conv_state "u-1"
          (ConversionOutcome.failure "AI conversion failed")) "u-1"
        (ConversionOutcome.failure "AI timeout")).account.credits_remaining
      = conv_state.account.credits_remaining + 100 :=
  (conversion_refund_at_most_once conv_state "u-1" "AI conversion failed"
    "AI timeout" conv_row (by decide)).1 rfl
